import Mathlib

/-!
Shallow embedding of `xapktool.py` (class `XAPK`): the input-resolution and
bundle-descriptor construction pipeline of the XAPK packaging tool.

File-system facts (directory existence, glob results, stat sizes) and the
androguard package-inspection collaborator are modelled as explicit inputs:
a file is a name paired with its stat size, and the collaborator is a record
of `Except`-valued queries (an exception is an `Except.error` carrying the
message that Python would interpolate into the wrapping `RuntimeError`).
-/

deriving instance DecidableEq for Except

/-- A file as the pipeline sees it: its final path component (`Path.name`)
and its `stat().st_size`. -/
structure SrcFile where
  name : String
  size : Nat
deriving DecidableEq, Repr

/-- The androguard `APK` collaborator, one `Except`-valued query per method
the tool calls.  `getIcon` stands for the composite
`apk.get_file(apk.get_app_icon(max_dpi=65534))` call.  androguard returns
version/sdk fields as strings. -/
structure Inspector where
  getPackage : Except String String
  getAppName : Except String String
  getVersionCode : Except String String
  getVersionName : Except String String
  getMinSdk : Except String String
  getTargetSdk : Except String String
  getPermissions : Except String (List String)
  getIcon : Except String String
deriving Repr

/-- `{'file': ..., 'id': ...}` entry of `split_apks`. -/
structure SplitApkEntry where
  file : String
  id : String
deriving DecidableEq, Repr

/-- `{'file': ..., 'install_location': ..., 'install_path': ...}` entry of
`expansions`. -/
structure ExpansionEntry where
  file : String
  install_location : String
  install_path : String
deriving DecidableEq, Repr

/-- The manifest dict built by `XAPK.make_manifest`.  The two conditionally
inserted keys are `Option`s: `none` models key absence. -/
structure Manifest where
  xapk_version : Nat
  package_name : String
  name : String
  version_code : String
  version_name : String
  min_sdk_version : String
  target_sdk_version : String
  permissions : List String
  total_size : Nat
  split_apks : List SplitApkEntry
  split_configs : Option (List String)
  expansions : Option (List ExpansionEntry)
deriving DecidableEq, Repr

/-- The state a successful `XAPK.initialize` leaves behind: the manifest and
the optional icon bytes. -/
structure InitResult where
  manifest : Manifest
  icon : Option String
deriving DecidableEq, Repr

/-- Observable steps of `XAPK.initialize`, used to state in which order the
pipeline performs package inspection, manifest construction and
verification. -/
inductive Event where
  | inspectApk
  | manifestBuilt
  | verifyDone
deriving DecidableEq, Repr

def exceptOk {α : Type} : Except String α → Bool
  | .ok _ => true
  | .error _ => false

def exceptToOption {α : Type} : Except String α → Option α
  | .ok a => some a
  | .error _ => none

/-- Index of the last `'.'` in a character list, if any. -/
def lastDotIdx : List Char → Option Nat
  | [] => none
  | c :: cs =>
    match lastDotIdx cs with
    | some i => some (i + 1)
    | none => if c = '.' then some 0 else none

/-- Python `PurePath.stem`: the final path component without its last
suffix.  CPython strips from the last `'.'` only when its index `i`
satisfies `0 < i < len(name) - 1`; otherwise the name is returned whole. -/
def pyStem (s : String) : String :=
  match lastDotIdx s.data with
  | none => s
  | some i => if 0 < i ∧ i + 1 < s.data.length then ⟨s.data.take i⟩ else s

/-- Python `str.split(".")`, accumulator form: split on every dot, keeping
empty segments (`"a..b" ↦ ["a", "", "b"]`, `"" ↦ [""]`). -/
def splitDotAux : List Char → List Char → List String
  | [], acc => [String.mk acc.reverse]
  | c :: cs, acc =>
    if c = '.' then String.mk acc.reverse :: splitDotAux cs []
    else splitDotAux cs (c :: acc)

/-- Python `str.split(".")` on a string. -/
def pySplitDot (s : String) : List String :=
  splitDotAux s.data []

/-- Python `".".join(l)`. -/
def joinDot : List String → String
  | [] => ""
  | [s] => s
  | s :: rest => s ++ "." ++ joinDot rest

/-- The identity token `".".join(obb.stem.split(".")[2:])` that
`XAPK.initialize` reconstructs from an expansion filename
(`xapktool.py` line 49). -/
def obbToken (nm : String) : String :=
  joinDot ((pySplitDot (pyStem nm)).drop 2)

/-- The verification loop of `XAPK.initialize` (lines 48-51): for each obb
file in order, compare its reconstructed token with the package name and
raise `ValueError` on the first mismatch. -/
def verifyObbs (pkg : String) : List SrcFile → Except String Unit
  | [] => .ok ()
  | f :: rest =>
    if obbToken f.name ≠ pkg then
      .error "The APK and OBB files do not belong to the same app."
    else verifyObbs pkg rest

/-- The manifest record that `XAPK.make_manifest` assembles once every
collaborator query has answered. -/
def mkManifest (apkFile : SrcFile) (obbFiles splitConfigFiles : List SrcFile)
    (pkg appName vc vn minS tgtS : String) (perms : List String) : Manifest :=
  let obbInfo : List ExpansionEntry := obbFiles.map (fun f =>
    { file := "Android/obb/" ++ pkg ++ "/" ++ f.name
      install_location := "EXTERNAL_STORAGE"
      install_path := "Android/obb/" ++ pkg ++ "/" ++ f.name })
  let splitApksInfo : List SplitApkEntry :=
    { file := pkg ++ ".apk", id := "base" } ::
      splitConfigFiles.map (fun f => { file := f.name, id := pyStem f.name })
  let splitConfigsInfo : List String := splitConfigFiles.map (fun f => pyStem f.name)
  { xapk_version := 2
    package_name := pkg
    name := appName
    version_code := vc
    version_name := vn
    min_sdk_version := minS
    target_sdk_version := tgtS
    permissions := perms
    total_size :=
      (splitConfigFiles.map SrcFile.size).foldl (· + ·)
        ((obbFiles.map SrcFile.size).foldl (· + ·) apkFile.size)
    split_apks := splitApksInfo
    split_configs := if splitConfigsInfo.length ≠ 0 then some splitConfigsInfo else none
    expansions := if obbInfo.length ≠ 0 then some obbInfo else none }

/-- `XAPK.make_manifest` (lines 57-105).  The collaborator queries are bound
in the order Python evaluates them (`get_package` first — in the obb loop or
in the `split_apks_info` literal — then the manifest-dict literal fields);
the first raised exception is wrapped `"Manifest creation: {e}"`.  Stat
calls cannot fail in this model, sizes being carried by `SrcFile`. -/
def makeManifest (apkFile : SrcFile) (obbFiles splitConfigFiles : List SrcFile)
    (insp : Inspector) : Except String Manifest :=
  match insp.getPackage with
  | .error e => .error ("Manifest creation: " ++ e)
  | .ok pkg =>
    match insp.getAppName with
    | .error e => .error ("Manifest creation: " ++ e)
    | .ok appName =>
      match insp.getVersionCode with
      | .error e => .error ("Manifest creation: " ++ e)
      | .ok vc =>
        match insp.getVersionName with
        | .error e => .error ("Manifest creation: " ++ e)
        | .ok vn =>
          match insp.getMinSdk with
          | .error e => .error ("Manifest creation: " ++ e)
          | .ok minS =>
            match insp.getTargetSdk with
            | .error e => .error ("Manifest creation: " ++ e)
            | .ok tgtS =>
              match insp.getPermissions with
              | .error e => .error ("Manifest creation: " ++ e)
              | .ok perms =>
                .ok (mkManifest apkFile obbFiles splitConfigFiles pkg appName vc vn minS tgtS perms)

/-- `XAPK.initialize` (lines 21-55).  Inputs stand for the file-system
facts the method reads: whether the folder is a directory, the `base.apk`
glob result, the `*.obb` glob results, and the `config.*.apk` plus
`asset.*.apk` glob results, in enumeration order.  The returned trace
records which pipeline stages ran; every raised exception is wrapped
`"Initialization: {e}"`. -/
def initializePipeline (folder : String) (folderIsDir : Bool) (apkSrc : Option SrcFile)
    (obbFiles splitConfigFiles : List SrcFile) (insp : Inspector) :
    List Event × Except String InitResult :=
  if folderIsDir = false then
    ([], .error ("Initialization: The specified folder \x27" ++ folder ++
      "\x27 does not exist or is not a directory."))
  else
    match apkSrc with
    | none => ([], .error "Initialization: No APK file found in the specified folder.")
    | some apkFile =>
      if obbFiles.isEmpty && splitConfigFiles.isEmpty then
        ([], .error "Initialization: No OBB and split files found in the specified directory.")
      else
        match makeManifest apkFile obbFiles splitConfigFiles insp with
        | .error e => ([Event.inspectApk], .error ("Initialization: " ++ e))
        | .ok m =>
          let icon := exceptToOption insp.getIcon
          match insp.getPackage with
          | .error e => ([Event.inspectApk, Event.manifestBuilt], .error ("Initialization: " ++ e))
          | .ok pkg =>
            match verifyObbs pkg obbFiles with
            | .error e => ([Event.inspectApk, Event.manifestBuilt], .error ("Initialization: " ++ e))
            | .ok _ =>
              ([Event.inspectApk, Event.manifestBuilt, Event.verifyDone], .ok ⟨m, icon⟩)

/-- All collaborator queries except the icon query answer without raising. -/
def Inspector.coreOk (i : Inspector) : Bool :=
  exceptOk i.getPackage && exceptOk i.getAppName && exceptOk i.getVersionCode &&
  exceptOk i.getVersionName && exceptOk i.getMinSdk && exceptOk i.getTargetSdk &&
  exceptOk i.getPermissions

/-- Concrete collaborator used to instantiate theorems on the scenario of
spec section 8: package `com.example.app`, version `1.0`. -/
def exInspector : Inspector :=
  { getPackage := .ok "com.example.app"
    getAppName := .ok "Example"
    getVersionCode := .ok "1"
    getVersionName := .ok "1.0"
    getMinSdk := .ok "21"
    getTargetSdk := .ok "33"
    getPermissions := .ok ["android.permission.INTERNET"]
    getIcon := .ok "iconbytes" }

/-- Same collaborator, but the icon query raises. -/
def exInspectorNoIcon : Inspector :=
  { exInspector with getIcon := .error "icon not found" }

/-- Boolean substring test on strings (used to state that an error message
does not mention a file name). -/
def strContainsSub (hay needle : String) : Bool :=
  (List.range (hay.data.length + 1)).any (fun i => needle.data.isPrefixOf (hay.data.drop i))

/-- Concrete base package of the running example. -/
def exApk : SrcFile := ⟨"base.apk", 1000⟩

/-- Concrete expansion-file list of the running example. -/
def exObbs : List SrcFile := [⟨"main.123.com.example.app.obb", 2000⟩]

/-- Concrete split-config list of the running example. -/
def exSplits : List SrcFile := [⟨"config.en.apk", 500⟩]

/-- The `InitResult` the pipeline produces on the running example. -/
def exResult : InitResult :=
  ⟨mkManifest exApk exObbs exSplits "com.example.app" "Example" "1" "1.0" "21" "33"
    ["android.permission.INTERNET"], some "iconbytes"⟩

/- ## Helper lemmas -/

theorem exceptOk_iff {α : Type} (e : Except String α) :
    exceptOk e = true ↔ ∃ v, e = .ok v := by
  cases e <;> simp [exceptOk]

theorem foldl_add_eq (l : List Nat) (a : Nat) : l.foldl (· + ·) a = a + l.sum := by
  induction l generalizing a with
  | nil => simp
  | cons x xs ih => simp [List.foldl_cons, ih, List.sum_cons]; omega

theorem verifyObbs_ok_iff (pkg : String) (l : List SrcFile) :
    verifyObbs pkg l = .ok () ↔ ∀ f ∈ l, obbToken f.name = pkg := by
  induction l with
  | nil => simp [verifyObbs]
  | cons f rest ih =>
    by_cases hf : obbToken f.name = pkg
    · simp [verifyObbs, hf, ih]
    · simp [verifyObbs, hf]

theorem verifyObbs_error_of (pkg : String) (l : List SrcFile)
    (h : ¬ ∀ f ∈ l, obbToken f.name = pkg) :
    verifyObbs pkg l = .error "The APK and OBB files do not belong to the same app." := by
  induction l with
  | nil => simp at h
  | cons f rest ih =>
    by_cases hf : obbToken f.name = pkg
    · have hrest : ¬ ∀ g ∈ rest, obbToken g.name = pkg := by
        intro hall
        exact h (by
          intro g hg
          rcases List.mem_cons.mp hg with hg | hg
          · rw [hg]; exact hf
          · exact hall g hg)
      simp [verifyObbs, hf, ih hrest]
    · simp [verifyObbs, hf]

theorem makeManifest_ok (apkFile : SrcFile) (obbs splits : List SrcFile) (insp : Inspector)
    (pkg an vc vn ms ts : String) (ps : List String)
    (h1 : insp.getPackage = .ok pkg) (h2 : insp.getAppName = .ok an)
    (h3 : insp.getVersionCode = .ok vc) (h4 : insp.getVersionName = .ok vn)
    (h5 : insp.getMinSdk = .ok ms) (h6 : insp.getTargetSdk = .ok ts)
    (h7 : insp.getPermissions = .ok ps) :
    makeManifest apkFile obbs splits insp =
      .ok (mkManifest apkFile obbs splits pkg an vc vn ms ts ps) := by
  simp [makeManifest, h1, h2, h3, h4, h5, h6, h7]

theorem makeManifest_ok_inv (apkFile : SrcFile) (obbs splits : List SrcFile)
    (insp : Inspector) (m : Manifest)
    (h : makeManifest apkFile obbs splits insp = .ok m) :
    ∃ pkg an vc vn ms ts ps,
      insp.getPackage = .ok pkg ∧ insp.getAppName = .ok an ∧
      insp.getVersionCode = .ok vc ∧ insp.getVersionName = .ok vn ∧
      insp.getMinSdk = .ok ms ∧ insp.getTargetSdk = .ok ts ∧
      insp.getPermissions = .ok ps ∧
      m = mkManifest apkFile obbs splits pkg an vc vn ms ts ps := by
  unfold makeManifest at h
  cases h1 : insp.getPackage with
  | error e => simp [h1] at h
  | ok pkg =>
    simp only [h1] at h
    cases h2 : insp.getAppName with
    | error e => simp [h2] at h
    | ok an =>
      simp only [h2] at h
      cases h3 : insp.getVersionCode with
      | error e => simp [h3] at h
      | ok vc =>
        simp only [h3] at h
        cases h4 : insp.getVersionName with
        | error e => simp [h4] at h
        | ok vn =>
          simp only [h4] at h
          cases h5 : insp.getMinSdk with
          | error e => simp [h5] at h
          | ok ms =>
            simp only [h5] at h
            cases h6 : insp.getTargetSdk with
            | error e => simp [h6] at h
            | ok ts =>
              simp only [h6] at h
              cases h7 : insp.getPermissions with
              | error e => simp [h7] at h
              | ok ps =>
                simp only [h7] at h
                exact ⟨pkg, an, vc, vn, ms, ts, ps, rfl, rfl, rfl, rfl, rfl, rfl, rfl,
                  (Except.ok.inj h).symm⟩

theorem pipeline_ok (folder : String) (apkFile : SrcFile) (obbs splits : List SrcFile)
    (insp : Inspector) (pkg an vc vn ms ts : String) (ps : List String)
    (hsupp : (obbs.isEmpty && splits.isEmpty) = false)
    (h1 : insp.getPackage = .ok pkg) (h2 : insp.getAppName = .ok an)
    (h3 : insp.getVersionCode = .ok vc) (h4 : insp.getVersionName = .ok vn)
    (h5 : insp.getMinSdk = .ok ms) (h6 : insp.getTargetSdk = .ok ts)
    (h7 : insp.getPermissions = .ok ps)
    (hver : ∀ f ∈ obbs, obbToken f.name = pkg) :
    initializePipeline folder true (some apkFile) obbs splits insp =
      ([Event.inspectApk, Event.manifestBuilt, Event.verifyDone],
        .ok ⟨mkManifest apkFile obbs splits pkg an vc vn ms ts ps,
          exceptToOption insp.getIcon⟩) := by
  have hm := makeManifest_ok apkFile obbs splits insp pkg an vc vn ms ts ps
    h1 h2 h3 h4 h5 h6 h7
  have hv := (verifyObbs_ok_iff pkg obbs).mpr hver
  simp [initializePipeline, hsupp, hm, h1, hv]

theorem pipeline_mismatch (folder : String) (apkFile : SrcFile) (obbs splits : List SrcFile)
    (insp : Inspector) (pkg an vc vn ms ts : String) (ps : List String)
    (h1 : insp.getPackage = .ok pkg) (h2 : insp.getAppName = .ok an)
    (h3 : insp.getVersionCode = .ok vc) (h4 : insp.getVersionName = .ok vn)
    (h5 : insp.getMinSdk = .ok ms) (h6 : insp.getTargetSdk = .ok ts)
    (h7 : insp.getPermissions = .ok ps)
    (hmm : ¬ ∀ f ∈ obbs, obbToken f.name = pkg) :
    initializePipeline folder true (some apkFile) obbs splits insp =
      ([Event.inspectApk, Event.manifestBuilt],
        .error "Initialization: The APK and OBB files do not belong to the same app.") := by
  have hobbs : obbs ≠ [] := by
    intro hnil
    exact hmm (by simp [hnil])
  have hsupp : (obbs.isEmpty && splits.isEmpty) = false := by
    simp [List.isEmpty_iff, hobbs]
  have hm := makeManifest_ok apkFile obbs splits insp pkg an vc vn ms ts ps
    h1 h2 h3 h4 h5 h6 h7
  have hv := verifyObbs_error_of pkg obbs hmm
  simp [initializePipeline, hsupp, hm, h1, hv]

theorem pipeline_ok_inv (folder : String) (folderIsDir : Bool) (apkSrc : Option SrcFile)
    (obbs splits : List SrcFile) (insp : Inspector) (st : InitResult)
    (h : (initializePipeline folder folderIsDir apkSrc obbs splits insp).2 = .ok st) :
    ∃ apkFile pkg an vc vn ms ts ps,
      apkSrc = some apkFile ∧
      insp.getPackage = .ok pkg ∧ insp.getAppName = .ok an ∧
      insp.getVersionCode = .ok vc ∧ insp.getVersionName = .ok vn ∧
      insp.getMinSdk = .ok ms ∧ insp.getTargetSdk = .ok ts ∧
      insp.getPermissions = .ok ps ∧
      (∀ f ∈ obbs, obbToken f.name = pkg) ∧
      st = ⟨mkManifest apkFile obbs splits pkg an vc vn ms ts ps,
        exceptToOption insp.getIcon⟩ := by
  unfold initializePipeline at h
  cases folderIsDir with
  | false => simp at h
  | true =>
    simp only [Bool.true_eq_false, if_false] at h
    cases apkSrc with
    | none => simp at h
    | some apkFile =>
      cases hsupp : (obbs.isEmpty && splits.isEmpty) with
      | true => simp [hsupp] at h
      | false =>
        simp only [hsupp, if_false, Bool.false_eq_true] at h
        cases hm : makeManifest apkFile obbs splits insp with
        | error e => simp [hm] at h
        | ok m =>
          simp only [hm] at h
          obtain ⟨pkg, an, vc, vn, ms, ts, ps, h1, h2, h3, h4, h5, h6, h7, hmeq⟩ :=
            makeManifest_ok_inv apkFile obbs splits insp m hm
          simp only [h1] at h
          cases hv : verifyObbs pkg obbs with
          | error e => simp [hv] at h
          | ok u =>
            simp only [hv] at h
            cases u
            have hver := (verifyObbs_ok_iff pkg obbs).mp hv
            refine ⟨apkFile, pkg, an, vc, vn, ms, ts, ps, rfl,
              h1, h2, h3, h4, h5, h6, h7, hver, ?_⟩
            rw [← (Except.ok.inj h), hmeq]

theorem pipeline_ok_coreOk (folder : String) (folderIsDir : Bool) (apkSrc : Option SrcFile)
    (obbs splits : List SrcFile) (insp : Inspector) (st : InitResult)
    (h : (initializePipeline folder folderIsDir apkSrc obbs splits insp).2 = .ok st) :
    insp.coreOk = true := by
  obtain ⟨_, _, _, _, _, _, _, _, _, h1, h2, h3, h4, h5, h6, h7, _, _⟩ :=
    pipeline_ok_inv folder folderIsDir apkSrc obbs splits insp st h
  simp [Inspector.coreOk, h1, h2, h3, h4, h5, h6, h7, exceptOk]

theorem mkManifest_total_size (apkFile : SrcFile) (obbs splits : List SrcFile)
    (pkg an vc vn ms ts : String) (ps : List String) :
    (mkManifest apkFile obbs splits pkg an vc vn ms ts ps).total_size =
      apkFile.size + (obbs.map SrcFile.size).sum + (splits.map SrcFile.size).sum := by
  simp [mkManifest, foldl_add_eq]

theorem mkManifest_split_configs (apkFile : SrcFile) (obbs splits : List SrcFile)
    (pkg an vc vn ms ts : String) (ps : List String) :
    (mkManifest apkFile obbs splits pkg an vc vn ms ts ps).split_configs =
      if splits = [] then none else some (splits.map fun f => pyStem f.name) := by
  by_cases hs : splits = [] <;> simp [mkManifest, hs]

theorem mkManifest_expansions (apkFile : SrcFile) (obbs splits : List SrcFile)
    (pkg an vc vn ms ts : String) (ps : List String) :
    (mkManifest apkFile obbs splits pkg an vc vn ms ts ps).expansions =
      if obbs = [] then none
      else some (obbs.map fun f =>
        { file := "Android/obb/" ++ pkg ++ "/" ++ f.name
          install_location := "EXTERNAL_STORAGE"
          install_path := "Android/obb/" ++ pkg ++ "/" ++ f.name }) := by
  by_cases ho : obbs = [] <;> simp [mkManifest, ho]

/- ## Claim theorems -/

/-- Claim C1, counterexample: on a directory whose expansion file embeds a
package name other than the base package's, the build does fail — but the
trace shows manifest construction already ran, refuting "identity
verification is performed before manifest construction ... and no Manifest
is produced". -/
theorem c1_counterexample :
    (initializePipeline "apps" true (some ⟨"base.apk", 1000⟩)
        [⟨"main.312.com.example.other.obb", 2048⟩] [] exInspector).2 =
      .error "Initialization: The APK and OBB files do not belong to the same app." ∧
    Event.manifestBuilt ∈ (initializePipeline "apps" true (some ⟨"base.apk", 1000⟩)
        [⟨"main.312.com.example.other.obb", 2048⟩] [] exInspector).1 := by decide

/-- Claim C1 (amended): identity verification runs after manifest
construction.  When some expansion file's token differs from the declared
package name, the build fails (so the caller receives no result), but the
trace records that the manifest had already been constructed, and no
verification step completed. -/
theorem c1_verification_after_manifest
    (folder : String) (apkFile : SrcFile) (obbs splits : List SrcFile)
    (insp : Inspector) (pkg an vc vn ms ts : String) (ps : List String)
    (h1 : insp.getPackage = .ok pkg) (h2 : insp.getAppName = .ok an)
    (h3 : insp.getVersionCode = .ok vc) (h4 : insp.getVersionName = .ok vn)
    (h5 : insp.getMinSdk = .ok ms) (h6 : insp.getTargetSdk = .ok ts)
    (h7 : insp.getPermissions = .ok ps)
    (hmm : ¬ ∀ f ∈ obbs, obbToken f.name = pkg) :
    (initializePipeline folder true (some apkFile) obbs splits insp).2 =
      .error "Initialization: The APK and OBB files do not belong to the same app." ∧
    (initializePipeline folder true (some apkFile) obbs splits insp).1 =
      [Event.inspectApk, Event.manifestBuilt] := by
  rw [pipeline_mismatch folder apkFile obbs splits insp pkg an vc vn ms ts ps
    h1 h2 h3 h4 h5 h6 h7 hmm]
  exact ⟨rfl, rfl⟩

/-- Claim C1, witness for the amended theorem at a concrete mismatching
input. -/
theorem c1_witness :
    (initializePipeline "apps" true (some ⟨"base.apk", 1000⟩)
        [⟨"main.9.net.sample.game.obb", 64⟩] [] exInspector).2 =
      .error "Initialization: The APK and OBB files do not belong to the same app." ∧
    (initializePipeline "apps" true (some ⟨"base.apk", 1000⟩)
        [⟨"main.9.net.sample.game.obb", 64⟩] [] exInspector).1 =
      [Event.inspectApk, Event.manifestBuilt] :=
  c1_verification_after_manifest "apps" ⟨"base.apk", 1000⟩
    [⟨"main.9.net.sample.game.obb", 64⟩] [] exInspector
    "com.example.app" "Example" "1" "1.0" "21" "33" ["android.permission.INTERNET"]
    rfl rfl rfl rfl rfl rfl rfl (by decide)

/-- Claim C2: the identity token of an expansion file is
`".".join(stem.split(".")[2:])` (definition `obbToken`), and — provided the
folder resolves and the collaborator answers — the build succeeds exactly
when every expansion file's token equals the declared package name; any
single mismatch fails the whole bundle with the identity error. -/
theorem c2_identity_check
    (folder : String) (apkFile : SrcFile) (obbs splits : List SrcFile)
    (insp : Inspector) (pkg an vc vn ms ts : String) (ps : List String)
    (hsupp : (obbs.isEmpty && splits.isEmpty) = false)
    (h1 : insp.getPackage = .ok pkg) (h2 : insp.getAppName = .ok an)
    (h3 : insp.getVersionCode = .ok vc) (h4 : insp.getVersionName = .ok vn)
    (h5 : insp.getMinSdk = .ok ms) (h6 : insp.getTargetSdk = .ok ts)
    (h7 : insp.getPermissions = .ok ps) :
    (exceptOk (initializePipeline folder true (some apkFile) obbs splits insp).2 = true ↔
      ∀ f ∈ obbs, obbToken f.name = pkg) ∧
    ((¬ ∀ f ∈ obbs, obbToken f.name = pkg) →
      (initializePipeline folder true (some apkFile) obbs splits insp).2 =
        .error "Initialization: The APK and OBB files do not belong to the same app.") := by
  constructor
  · constructor
    · intro hok
      obtain ⟨st, hst⟩ := (exceptOk_iff _).mp hok
      obtain ⟨apkFile', pkg', an', vc', vn', ms', ts', ps', hsome, h1', _, _, _, _, _, _,
        hver, _⟩ := pipeline_ok_inv folder true (some apkFile) obbs splits insp st hst
      rw [h1] at h1'
      rwa [Except.ok.inj h1']
    · intro hver
      rw [pipeline_ok folder apkFile obbs splits insp pkg an vc vn ms ts ps
        hsupp h1 h2 h3 h4 h5 h6 h7 hver]
      rfl
  · intro hmm
    rw [pipeline_mismatch folder apkFile obbs splits insp pkg an vc vn ms ts ps
      h1 h2 h3 h4 h5 h6 h7 hmm]

/-- Claim C2, witness on the running example. -/
theorem c2_witness :
    exceptOk (initializePipeline "apps" true (some exApk) exObbs exSplits exInspector).2 =
      true ↔ ∀ f ∈ exObbs, obbToken f.name = "com.example.app" :=
  (c2_identity_check "apps" exApk exObbs exSplits exInspector
    "com.example.app" "Example" "1" "1.0" "21" "33" ["android.permission.INTERNET"]
    (by decide) rfl rfl rfl rfl rfl rfl rfl).1

/-- Claim C3: the produced manifest's `total_size` is the base package's
stat size plus the sum of all expansion-file and split-config stat sizes. -/
theorem c3_total_size (folder : String) (fd : Bool) (apkFile : SrcFile)
    (obbs splits : List SrcFile) (insp : Inspector) (st : InitResult)
    (h : (initializePipeline folder fd (some apkFile) obbs splits insp).2 = .ok st) :
    st.manifest.total_size =
      apkFile.size + (obbs.map SrcFile.size).sum + (splits.map SrcFile.size).sum := by
  obtain ⟨apkFile', pkg, an, vc, vn, ms, ts, ps, hsome, _, _, _, _, _, _, _, _, hst⟩ :=
    pipeline_ok_inv folder fd (some apkFile) obbs splits insp st h
  injection hsome with he
  subst he
  rw [hst]
  exact mkManifest_total_size apkFile obbs splits pkg an vc vn ms ts ps

/-- Claim C3, witness: the running example yields total size
1000 + 2000 + 500. -/
theorem c3_witness :
    (initializePipeline "apps" true (some exApk) exObbs exSplits exInspector).2 =
      .ok exResult ∧
    exResult.manifest.total_size =
      exApk.size + (exObbs.map SrcFile.size).sum + (exSplits.map SrcFile.size).sum :=
  ⟨by decide,
    c3_total_size "apps" true exApk exObbs exSplits exInspector exResult (by decide)⟩

/-- Claim C4: in every produced manifest the `split_configs` key is absent
iff the split-config sequence is empty, the `expansions` key is absent iff
the expansion sequence is empty, and neither key is ever present holding an
empty list. -/
theorem c4_optional_keys (folder : String) (fd : Bool) (apkFile : SrcFile)
    (obbs splits : List SrcFile) (insp : Inspector) (st : InitResult)
    (h : (initializePipeline folder fd (some apkFile) obbs splits insp).2 = .ok st) :
    (st.manifest.split_configs = none ↔ splits = []) ∧
    (st.manifest.expansions = none ↔ obbs = []) ∧
    (∀ l, st.manifest.split_configs = some l → l ≠ []) ∧
    (∀ es, st.manifest.expansions = some es → es ≠ []) := by
  obtain ⟨apkFile', pkg, an, vc, vn, ms, ts, ps, hsome, _, _, _, _, _, _, _, _, hst⟩ :=
    pipeline_ok_inv folder fd (some apkFile) obbs splits insp st h
  injection hsome with he
  subst he
  rw [hst]
  by_cases hs : splits = [] <;> by_cases ho : obbs = [] <;>
    simp [mkManifest_split_configs, mkManifest_expansions, hs, ho]

/-- Claim C4, witness on the running example (non-empty obb and split-config
sequences). -/
theorem c4_witness :
    (exResult.manifest.split_configs = none ↔ exSplits = []) ∧
    (exResult.manifest.expansions = none ↔ exObbs = []) ∧
    (∀ l, exResult.manifest.split_configs = some l → l ≠ []) ∧
    (∀ es, exResult.manifest.expansions = some es → es ≠ []) :=
  c4_optional_keys "apps" true exApk exObbs exSplits exInspector exResult (by decide)

/-- Claim C5, counterexample: the identity-mismatch failure carries the
fixed message "The APK and OBB files do not belong to the same app."
(wrapped with the stage label), in which the offending file's name does not
occur — refuting "the IdentityMismatch error names the offending file". -/
theorem c5_counterexample :
    (initializePipeline "apps" true (some ⟨"base.apk", 1000⟩)
        [⟨"patch.7.org.wrong.pkg.obb", 99⟩] [] exInspector).2 =
      .error "Initialization: The APK and OBB files do not belong to the same app." ∧
    strContainsSub "Initialization: The APK and OBB files do not belong to the same app."
      "patch.7.org.wrong.pkg.obb" = false := by decide

/-- Claim C5 (amended): when identity verification fails, the build fails
with the fixed message "The APK and OBB files do not belong to the same
app." — the same constant whatever the offending file, so the error does
not name that file. -/
theorem c5_fixed_mismatch_error
    (folder : String) (apkFile : SrcFile) (obbs splits : List SrcFile)
    (insp : Inspector) (pkg an vc vn ms ts : String) (ps : List String)
    (h1 : insp.getPackage = .ok pkg) (h2 : insp.getAppName = .ok an)
    (h3 : insp.getVersionCode = .ok vc) (h4 : insp.getVersionName = .ok vn)
    (h5 : insp.getMinSdk = .ok ms) (h6 : insp.getTargetSdk = .ok ts)
    (h7 : insp.getPermissions = .ok ps)
    (hmm : ¬ ∀ f ∈ obbs, obbToken f.name = pkg) :
    (initializePipeline folder true (some apkFile) obbs splits insp).2 =
      .error "Initialization: The APK and OBB files do not belong to the same app." := by
  rw [pipeline_mismatch folder apkFile obbs splits insp pkg an vc vn ms ts ps
    h1 h2 h3 h4 h5 h6 h7 hmm]

/-- Claim C5, witness for the amended theorem at a concrete mismatching
input. -/
theorem c5_witness :
    (initializePipeline "apps" true (some ⟨"base.apk", 1000⟩)
        [⟨"patch.44.com.another.id.obb", 77⟩] [] exInspector).2 =
      .error "Initialization: The APK and OBB files do not belong to the same app." :=
  c5_fixed_mismatch_error "apps" ⟨"base.apk", 1000⟩
    [⟨"patch.44.com.another.id.obb", 77⟩] [] exInspector
    "com.example.app" "Example" "1" "1.0" "21" "33" ["android.permission.INTERNET"]
    rfl rfl rfl rfl rfl rfl rfl (by decide)

/-- Claim C6: every produced manifest's `split_apks` list starts with the
base entry `{file: pkg ++ ".apk", id: "base"}` and continues with one entry
per split-config file — original filename as `file`, stem (filename without
extension) as `id` — in input order. -/
theorem c6_split_apks_order (folder : String) (fd : Bool) (apkFile : SrcFile)
    (obbs splits : List SrcFile) (insp : Inspector) (st : InitResult) (pkg : String)
    (h : (initializePipeline folder fd (some apkFile) obbs splits insp).2 = .ok st)
    (hpkg : insp.getPackage = .ok pkg) :
    st.manifest.split_apks =
      { file := pkg ++ ".apk", id := "base" } ::
        splits.map (fun f => { file := f.name, id := pyStem f.name }) := by
  obtain ⟨apkFile', pkg', an, vc, vn, ms, ts, ps, hsome, h1, _, _, _, _, _, _, _, hst⟩ :=
    pipeline_ok_inv folder fd (some apkFile) obbs splits insp st h
  injection hsome with he
  subst he
  rw [hpkg] at h1
  obtain rfl := Except.ok.inj h1
  rw [hst]
  simp [mkManifest]

/-- Claim C6, witness on the running example. -/
theorem c6_witness :
    exResult.manifest.split_apks =
      { file := "com.example.app" ++ ".apk", id := "base" } ::
        exSplits.map (fun f => { file := f.name, id := pyStem f.name }) :=
  c6_split_apks_order "apps" true exApk exObbs exSplits exInspector exResult
    "com.example.app" (by decide) rfl

/-- Claim C7: in every produced manifest, the expansion descriptors are one
per expansion file, each with `install_location = "EXTERNAL_STORAGE"` and
`file` and `install_path` both equal to
`Android/obb/<package_name>/<original filename>`. -/
theorem c7_expansion_descriptors (folder : String) (fd : Bool) (apkFile : SrcFile)
    (obbs splits : List SrcFile) (insp : Inspector) (st : InitResult) (pkg : String)
    (h : (initializePipeline folder fd (some apkFile) obbs splits insp).2 = .ok st)
    (hpkg : insp.getPackage = .ok pkg) (hobb : obbs ≠ []) :
    st.manifest.expansions =
      some (obbs.map fun f =>
        { file := "Android/obb/" ++ pkg ++ "/" ++ f.name
          install_location := "EXTERNAL_STORAGE"
          install_path := "Android/obb/" ++ pkg ++ "/" ++ f.name }) := by
  obtain ⟨apkFile', pkg', an, vc, vn, ms, ts, ps, hsome, h1, _, _, _, _, _, _, _, hst⟩ :=
    pipeline_ok_inv folder fd (some apkFile) obbs splits insp st h
  injection hsome with he
  subst he
  rw [hpkg] at h1
  obtain rfl := Except.ok.inj h1
  rw [hst]
  simp [mkManifest_expansions, hobb]

/-- Claim C7, witness on the running example. -/
theorem c7_witness :
    exResult.manifest.expansions =
      some (exObbs.map fun f =>
        { file := "Android/obb/" ++ "com.example.app" ++ "/" ++ f.name
          install_location := "EXTERNAL_STORAGE"
          install_path := "Android/obb/" ++ "com.example.app" ++ "/" ++ f.name }) :=
  c7_expansion_descriptors "apps" true exApk exObbs exSplits exInspector exResult
    "com.example.app" (by decide) rfl (by decide)

/-- Claim C8: a directory holding a base package but no expansion and no
split-config files makes the pipeline fail with the no-supplementary-files
error, whatever the collaborator would answer, with an empty trace — in
particular before any package inspection. -/
theorem c8_no_supplementary (folder : String) (apkFile : SrcFile) (insp : Inspector) :
    initializePipeline folder true (some apkFile) [] [] insp =
      ([], .error "Initialization: No OBB and split files found in the specified directory.") ∧
    Event.inspectApk ∉ (initializePipeline folder true (some apkFile) [] [] insp).1 := by
  constructor
  · simp [initializePipeline]
  · simp [initializePipeline]

/-- Claim C9: a failing icon query is not fatal — the build still succeeds
with no icon — while the build can only succeed when every other
collaborator query succeeded, so any other collaborator exception is
fatal. -/
theorem c9_icon_nonfatal (folder : String) (apkFile : SrcFile)
    (obbs splits : List SrcFile) (insp : Inspector) (pkg e : String) :
    ((insp.coreOk = true) → insp.getPackage = .ok pkg → insp.getIcon = .error e →
      (obbs.isEmpty && splits.isEmpty) = false →
      (∀ f ∈ obbs, obbToken f.name = pkg) →
      ∃ m, initializePipeline folder true (some apkFile) obbs splits insp =
        ([Event.inspectApk, Event.manifestBuilt, Event.verifyDone], .ok ⟨m, none⟩)) ∧
    (∀ fd src st, (initializePipeline folder fd src obbs splits insp).2 = .ok st →
      insp.coreOk = true) := by
  constructor
  · intro hcore hpkg hicon hsupp hver
    simp only [Inspector.coreOk, Bool.and_eq_true] at hcore
    obtain ⟨⟨⟨⟨⟨⟨_, oka⟩, okc⟩, okn⟩, okm⟩, okt⟩, okpm⟩ := hcore
    obtain ⟨an, h2⟩ := (exceptOk_iff _).mp oka
    obtain ⟨vc, h3⟩ := (exceptOk_iff _).mp okc
    obtain ⟨vn, h4⟩ := (exceptOk_iff _).mp okn
    obtain ⟨ms, h5⟩ := (exceptOk_iff _).mp okm
    obtain ⟨ts, h6⟩ := (exceptOk_iff _).mp okt
    obtain ⟨ps, h7⟩ := (exceptOk_iff _).mp okpm
    refine ⟨mkManifest apkFile obbs splits pkg an vc vn ms ts ps, ?_⟩
    rw [pipeline_ok folder apkFile obbs splits insp pkg an vc vn ms ts ps
      hsupp hpkg h2 h3 h4 h5 h6 h7 hver, hicon]
    rfl
  · intro fd src st hok
    exact pipeline_ok_coreOk folder fd src obbs splits insp st hok

/-- Claim C9, witness: with the icon query raising and everything else
answering, the concrete build succeeds with `icon = none`. -/
theorem c9_witness :
    ∃ m, initializePipeline "apps" true (some exApk) exObbs exSplits exInspectorNoIcon =
      ([Event.inspectApk, Event.manifestBuilt, Event.verifyDone], .ok ⟨m, none⟩) :=
  (c9_icon_nonfatal "apps" exApk exObbs exSplits exInspectorNoIcon
    "com.example.app" "icon not found").1
    (by decide) rfl rfl (by decide) (by decide)

/-- Claim C10: an expansion filename whose stem has at most two
dot-separated segments yields the empty identity token, so for any
non-empty package name the verification loop fails — with the very same
identity-mismatch message as a genuine mismatch, not a distinct
malformed-filename error. -/
theorem c10_malformed_name (nm pkg : String) (sz : Nat) (rest : List SrcFile)
    (hseg : (pySplitDot (pyStem nm)).length ≤ 2) (hpkg : pkg ≠ "") :
    obbToken nm = "" ∧
    verifyObbs pkg (⟨nm, sz⟩ :: rest) =
      .error "The APK and OBB files do not belong to the same app." := by
  have htok : obbToken nm = "" := by
    unfold obbToken
    rw [List.drop_eq_nil_of_le hseg]
    rfl
  refine ⟨htok, ?_⟩
  simp [verifyObbs, htok, Ne.symm hpkg]

/-- Claim C10, witness: `main.123.obb` has a two-segment stem, an empty
token, and fails verification against `com.example.app` with the generic
mismatch error. -/
theorem c10_witness :
    obbToken "main.123.obb" = "" ∧
    verifyObbs "com.example.app" [⟨"main.123.obb", 7⟩] =
      .error "The APK and OBB files do not belong to the same app." :=
  c10_malformed_name "main.123.obb" "com.example.app" 7 [] (by decide) (by decide)
